import Mathlib

/-!
Shallow embedding of `src/daemon/main.cpp` (the bitmonero daemon's process
lifecycle and mode-dispatch controller).  The controller resolves
configuration from defaults, a config file and argv, then either forwards a
one-shot command to a running instance or launches the daemon (foreground,
posix fork, or windows service), initialising logging on the launch path.

External collaborators that live outside this translation unit (boost
program_options storage, epee string/log helpers, the windows service API,
the daemon and command-server classes) are modelled as oracle inputs or as
definitions whose doc comment starts `Modelled from the spec:`.
-/

/-- Minimal model of a `boost::filesystem::path`: a list of components and an
absoluteness flag.  Only the operations `main` uses are modelled:
`is_relative`, `operator/` (lexical append of a relative path),
`has_parent_path`, `parent_path` and `filename`. -/
structure FsPath where
  abs : Bool
  comps : List String
deriving DecidableEq, Repr

/-- Parse a posix-style path string into the model (split on '/', a leading
'/' makes the path absolute). -/
def FsPath.ofString (s : String) : FsPath :=
  ⟨s.startsWith "/", (s.splitOn "/").filter (fun c => c ≠ "")⟩

/-- Mirrors `bf::path::is_relative`. -/
def FsPath.isRelative (p : FsPath) : Bool := !p.abs

/-- Mirrors boost `operator/` for the use in `main` (right operand relative):
lexical append of components. -/
def FsPath.join (d p : FsPath) : FsPath := ⟨d.abs, d.comps ++ p.comps⟩

/-- Mirrors `bf::path::has_parent_path`: true for `/x` (parent `/`) and for
any path of two or more components, false for a bare filename, the empty
path, and the root itself. -/
def FsPath.hasParentPath (p : FsPath) : Bool :=
  (p.abs && !p.comps.isEmpty) || p.comps.length > 1

/-- Mirrors `bf::path::parent_path`: drop the last component. -/
def FsPath.parentPath (p : FsPath) : FsPath := ⟨p.abs, p.comps.dropLast⟩

/-- Mirrors `bf::path::filename`: the last component. -/
def FsPath.filename (p : FsPath) : String := p.comps.getLast?.getD ""

/-- A typed option value in the variables map (`po::variables_map` stores
typed `boost::any` values; `main` reads strings, ints, bools and
string lists). -/
inductive OptValue where
  | str (s : String)
  | int (n : Int)
  | boolean (b : Bool)
  | strList (l : List String)
deriving DecidableEq, Repr

/-- The variables map: an association list from option name to value.  Lookup
finds the first binding for a key. -/
def vm_get (vm : List (String × OptValue)) (k : String) : Option OptValue :=
  (vm.find? (fun e => e.fst == k)).map (fun e => e.snd)

/-- Mirrors `command_line::arg_present` / `vm.count(name) > 0`. -/
def vm_contains (vm : List (String × OptValue)) (k : String) : Bool :=
  (vm.find? (fun e => e.fst == k)).isSome

/-- Read a string option, with the registered default when absent. -/
def vm_get_str (vm : List (String × OptValue)) (k : String) (d : String) : String :=
  match vm_get vm k with
  | some (OptValue.str s) => s
  | _ => d

/-- Read an int option, with the registered default when absent. -/
def vm_get_int (vm : List (String × OptValue)) (k : String) (d : Int) : Int :=
  match vm_get vm k with
  | some (OptValue.int n) => n
  | _ => d

/-- Read a string-list option (the positional command tokens). -/
def vm_get_strlist (vm : List (String × OptValue)) (k : String) : List String :=
  match vm_get vm k with
  | some (OptValue.strList l) => l
  | _ => []

/-- Modelled from the spec: `po::store` (boost program_options, outside
src/) merges newly parsed values *underneath* values already stored — a key
that already has a binding in the map is left untouched, only absent keys
are inserted. -/
def po_store (parsed vm : List (String × OptValue)) : List (String × OptValue) :=
  parsed.foldl (fun acc kv => if vm_contains acc kv.fst then acc else acc ++ [kv]) vm

/-- Modelled from the spec: `po::parse_config_file` (boost, outside src/)
parses the file against the given option registry and fails (throws, here
`Except.error`) when the file holds a key that the registry did not
declare. -/
def parse_config_file (registry : List String) (entries : List (String × OptValue)) :
    Except String (List (String × OptValue)) :=
  if entries.all (fun kv => registry.contains kv.fst) then Except.ok entries
  else Except.error "unrecognised option in config file"

/-- Lines 79-103: the option names registered into the `core_settings`
description: `log-file`, `log-level`, and whatever
`daemonize::t_daemon::init_options` registers (that function is outside
src/, so its names are a parameter).  `data-dir`, `config-file` and
`detach` go into `visible_options`, and `daemon_command` /
`run-as-service` into `all_options`, so none of them is in this registry. -/
def core_settings_names (daemonNames : List String) : List String :=
  ["log-file", "log-level"] ++ daemonNames

/-- Lines 136-152: compute the final variables map.  The config file is
parsed (against `core_settings` only) just when it exists, and its values
are stored into the map that already holds the argv values, so argv wins on
any key conflict.  A parse failure propagates as an exception. -/
def resolve_config (registry : List String) (configExists : Bool)
    (configEntries argvVm : List (String × OptValue)) :
    Except String (List (String × OptValue)) :=
  if configExists then
    match parse_config_file registry configEntries with
    | Except.error e => Except.error e
    | Except.ok parsed => Except.ok (po_store parsed argvVm)
  else Except.ok argvVm

/-- Modelled from the spec: log level bounds from epee `misc_log_ex.h`
(outside src/): the closed validity range of requested verbosity levels. -/
def LOG_LEVEL_MIN : Int := -1

/-- Modelled from the spec: upper bound of the verbosity range. -/
def LOG_LEVEL_MAX : Int := 4

/-- Default log level, also the value forced at line 187. -/
def LOG_LEVEL_0 : Int := 0

/-- Modelled from the spec: the project name constant (outside src/), used
for default file names and the version banner. -/
def CRYPTONOTE_NAME : String := "bitmonero"

/-- Line 93: the registered default for `--log-file`. -/
def defaultLogFileName : String := CRYPTONOTE_NAME ++ ".log"

/-- Lines 253, 278, 284: the version banner printed before running. -/
def versionBanner : String := CRYPTONOTE_NAME ++ " v0.8.8"

/-- Observable actions of the controller, in program order. -/
inductive Event where
  | stderrMsg (s : String)
  | logPrint (s : String)
  | logError (s : String)
  | setLogLevel (n : Int)
  | addFileLogger (path : FsPath) (dir : FsPath)
  | addConsoleLogger
  | constructCommandServer (ip : Nat) (port : Nat)
  | sendCommand (tokens : List String)
  | installService
  | startService
  | uninstallService
  | runService
  | runDaemon
  | forkProcess
deriving DecidableEq, Repr

/-- Events of the command-forwarding machinery: constructing the
control-channel client and transmitting the command (a network attempt). -/
def Event.isForwarding : Event → Bool
  | Event.constructCommandServer _ _ => true
  | Event.sendCommand _ => true
  | _ => false

/-- Events of any daemonization branch or service action. -/
def Event.isDaemonAction : Event → Bool
  | Event.installService => true
  | Event.startService => true
  | Event.uninstallService => true
  | Event.runService => true
  | Event.runDaemon => true
  | Event.forkProcess => true
  | _ => false

/-- Events of logging initialization (level setting and sink attachment). -/
def Event.isLoggingInit : Event → Bool
  | Event.setLogLevel _ => true
  | Event.addFileLogger _ _ => true
  | Event.addConsoleLogger => true
  | _ => false

/-- Attaching the file sink. -/
def Event.isFileLogger : Event → Bool
  | Event.addFileLogger _ _ => true
  | _ => false

/-- A write to the standard error stream. -/
def Event.isStderr : Event → Bool
  | Event.stderrMsg _ => true
  | _ => false

/-- Lines 190-201: the effective log-detalisation level after the set-level
block, given the level in force before it (`prev`) and the requested level:
out-of-range requests are rejected (level retained), in-range requests are
applied. -/
def set_log_level_result (prev req : Int) : Int :=
  if req < LOG_LEVEL_MIN ∨ req > LOG_LEVEL_MAX then prev
  else req

/-- Lines 190-201: the log lines and level-store actions emitted by the
set-level block. -/
def set_log_level_events (prev req : Int) : List Event :=
  if req < LOG_LEVEL_MIN ∨ req > LOG_LEVEL_MAX then
    [Event.logPrint ("Wrong log level value: " ++ toString req)]
  else if prev ≠ req then
    [Event.setLogLevel req, Event.logPrint ("LOG_LEVEL set to " ++ toString req)]
  else []

/-- Lines 209-214: the candidate log file path — the configured string,
resolved against the data directory when relative. -/
def log_file_candidate (dataDir : FsPath) (configured : String) : FsPath :=
  let p := FsPath.ofString configured
  if p.isRelative then dataDir.join p else p

/-- Lines 209-221: the log file path actually used: the candidate, unless it
has no parent directory or its parent does not exist (per the filesystem
oracle `fsExists`), in which case the process-defined default log file is
substituted. -/
def resolve_log_file (dataDir : FsPath) (configured : String) (dflt : FsPath)
    (fsExists : FsPath → Bool) : FsPath :=
  let p := log_file_candidate dataDir configured
  if !p.hasParentPath || !fsExists p.parentPath then dflt else p

/-- The controller's input: everything `main` observes from argv, the
filesystem and its external collaborators.  Results of calls into code
outside src/ (epee parsers, the remote command server, the windows service
API) are oracle fields. -/
structure MainInput where
  /-- Line 112: whether `parse_options` succeeded. -/
  argvParseOk : Bool
  /-- Line 117: whether help was requested and printed. -/
  helpRequested : Bool
  /-- Line 125: whether a system-info query was requested and printed. -/
  sysQuery : Bool
  /-- The positional tokens the argv parser collected into `daemon_command`. -/
  command : List String
  /-- The named options stored from argv. -/
  argvOpts : List (String × OptValue)
  /-- Line 147: whether the resolved config path exists. -/
  configExists : Bool
  /-- The key/value entries the config file holds. -/
  configEntries : List (String × OptValue)
  /-- The option names `daemonize::t_daemon::init_options` registers
  (outside src/). -/
  daemonNames : List String
  /-- Registered default of `rpc-bind-ip` (outside src/). -/
  rpcIpDefault : String
  /-- Registered default of `rpc-bind-port` (outside src/). -/
  rpcPortDefault : String
  /-- Modelled from the spec: result of epee `get_ip_int32_from_string`
  on the resolved ip string — `none` when malformed. -/
  parseIp : Option Nat
  /-- Modelled from the spec: result of epee `get_xtype_from_string` for
  the 16-bit port — `none` when malformed. -/
  parsePort : Option Nat
  /-- Modelled from the spec: the remote boolean acceptance flag returned
  by `process_command_vec`; a transport failure surfaces as `false`. -/
  remoteAccepted : Bool
  /-- Line 132/208: the absolute data directory. -/
  dataDir : FsPath
  /-- Modelled from the spec: epee `get_default_log_file` (outside src/),
  the process-defined default log file. -/
  defaultLogFile : FsPath
  /-- Modelled from the spec: epee `get_default_log_folder` (outside src/). -/
  defaultLogFolder : FsPath
  /-- Filesystem oracle: whether a directory exists (line 218's
  `bf::exists`). -/
  fsExistsParent : FsPath → Bool
  /-- Whether the build is WIN32 (selects the `#ifdef` branches). -/
  isWindows : Bool
  /-- Modelled from the spec: result of `windows::install_service`. -/
  installOk : Bool
  /-- Modelled from the spec: result of `windows::start_service`. -/
  startOk : Bool
  /-- The effective log-detalisation level in force before `main`'s logging
  section runs. -/
  initialLogLevel : Int

/-- The controller's observable outcome: process exit code, ordered trace of
actions, and the final effective log level. -/
structure MainResult where
  exitCode : Nat
  events : List Event
  logLevel : Int
deriving DecidableEq, Repr

/-- The variables map after argv parsing (line 112): the named options plus,
when positional tokens were given, the collected `daemon_command` list. -/
def argv_vm (inp : MainInput) : List (String × OptValue) :=
  inp.argvOpts ++
    (if inp.command.isEmpty then []
     else [("daemon_command", OptValue.strList inp.command)])

/-- Line 204 with the `#ifdef WIN32` at lines 99-101: `run-as-service` is
only registered (hence only ever present) on windows builds. -/
def win_service_flag (inp : MainInput) (vm : List (String × OptValue)) : Bool :=
  inp.isWindows && vm_contains vm "run-as-service"

/-- Lines 154-184: the command-forwarding branch.  Parse the bind ip and
port (errors go to stderr with exit 1, before the client is built), then
construct the command server, transmit the tokens and map the boolean
outcome to the exit code. -/
def forward_commands (inp : MainInput) (vm : List (String × OptValue)) : MainResult :=
  let ipStr := vm_get_str vm "rpc-bind-ip" inp.rpcIpDefault
  let portStr := vm_get_str vm "rpc-bind-port" inp.rpcPortDefault
  match inp.parseIp with
  | none => ⟨1, [Event.stderrMsg ("Invalid IP: " ++ ipStr)], inp.initialLogLevel⟩
  | some ip =>
    match inp.parsePort with
    | none => ⟨1, [Event.stderrMsg ("Invalid port: " ++ portStr)], inp.initialLogLevel⟩
    | some port =>
      let evs := [Event.constructCommandServer ip port,
                  Event.sendCommand (vm_get_strlist vm "daemon_command")]
      if inp.remoteAccepted then ⟨0, evs, inp.initialLogLevel⟩
      else ⟨1, evs ++ [Event.stderrMsg "Unknown command"], inp.initialLogLevel⟩

/-- Lines 186-231: the logging-initialization actions.  Force level
`LOG_LEVEL_0` (line 187), run the set-level block, resolve the log file and
attach the file sink, then attach the console sink just when neither detach
nor service mode is requested. -/
def logging_events (inp : MainInput) (vm : List (String × OptValue)) : List Event :=
  let req := vm_get_int vm "log-level" LOG_LEVEL_0
  let detach := vm_contains vm "detach"
  let winService := win_service_flag inp vm
  let logPath := resolve_log_file inp.dataDir (vm_get_str vm "log-file" defaultLogFileName)
      inp.defaultLogFile inp.fsExistsParent
  let logDir := if logPath.hasParentPath then logPath.parentPath else inp.defaultLogFolder
  [Event.setLogLevel LOG_LEVEL_0] ++ set_log_level_events LOG_LEVEL_0 req
    ++ [Event.addFileLogger logPath logDir]
    ++ (if !detach && !winService then [Event.addConsoleLogger] else [])

/-- Lines 250-286: the mode-dispatch actions: windows service run, windows
service install/start with uninstall rollback, posix fork, or interactive
run. -/
def launch_events (inp : MainInput) (vm : List (String × OptValue)) : List Event :=
  if win_service_flag inp vm then
    [Event.logPrint versionBanner, Event.runService]
  else if vm_contains vm "detach" then
    if inp.isWindows then
      [Event.installService]
        ++ (if inp.installOk then [Event.startService] else [])
        ++ (if inp.installOk && !inp.startOk then [Event.uninstallService] else [])
    else
      [Event.forkProcess, Event.logPrint versionBanner, Event.runDaemon]
  else
    [Event.logPrint versionBanner, Event.runDaemon]

/-- Lines 186-288: the daemon-launch path: logging initialization followed
by the mode dispatch; every branch falls through to `return 0` (line 288),
and the effective level is the set-level block's result applied to the
`LOG_LEVEL_0` forced at line 187. -/
def init_logging_and_launch (inp : MainInput) (vm : List (String × OptValue)) : MainResult :=
  ⟨0, logging_events inp vm ++ launch_events inp vm,
    set_log_level_result LOG_LEVEL_0 (vm_get_int vm "log-level" LOG_LEVEL_0)⟩

/-- Lines 70-299: the whole of `main`.  Early exits for argv parse failure,
help and system queries; config resolution whose exception lands in the
top-level catch (exit 1); then either the command-forwarding branch (when
positional tokens are present in the map) or the daemon-launch path. -/
def mainRun (inp : MainInput) : MainResult :=
  if !inp.argvParseOk then ⟨1, [], inp.initialLogLevel⟩
  else if inp.helpRequested then ⟨0, [], inp.initialLogLevel⟩
  else if inp.sysQuery then ⟨0, [], inp.initialLogLevel⟩
  else
    match resolve_config (core_settings_names inp.daemonNames) inp.configExists
        inp.configEntries (argv_vm inp) with
    | Except.error e => ⟨1, [Event.logError ("Exception in main! " ++ e)], inp.initialLogLevel⟩
    | Except.ok vm =>
      if vm_contains vm "daemon_command" then forward_commands inp vm
      else init_logging_and_launch inp vm

/-! ### Helper lemmas about the variables map and the merge -/

/-- A binding found in the left part of an appended map is still the one
found in the whole map. -/
theorem vm_get_append_left (vm₁ vm₂ : List (String × OptValue)) (k : String) (v : OptValue)
    (h : vm_get vm₁ k = some v) : vm_get (vm₁ ++ vm₂) k = some v := by
  unfold vm_get at h ⊢
  rcases Option.map_eq_some'.mp h with ⟨e, he, hv⟩
  rw [List.find?_append, he]
  simpa using hv

/-- Key presence distributes over appended maps. -/
theorem vm_contains_append (vm₁ vm₂ : List (String × OptValue)) (k : String) :
    vm_contains (vm₁ ++ vm₂) k = (vm_contains vm₁ k || vm_contains vm₂ k) := by
  unfold vm_contains
  rw [List.find?_append]
  cases vm₁.find? (fun e => e.fst == k) <;> simp

/-- A key with a binding is present. -/
theorem vm_contains_of_get (vm : List (String × OptValue)) (k : String) (v : OptValue)
    (h : vm_get vm k = some v) : vm_contains vm k = true := by
  unfold vm_get at h
  unfold vm_contains
  rcases Option.map_eq_some'.mp h with ⟨e, he, _⟩
  simp [he]

/-- A present key has a binding. -/
theorem vm_get_of_contains (vm : List (String × OptValue)) (k : String)
    (h : vm_contains vm k = true) : ∃ v, vm_get vm k = some v := by
  unfold vm_contains at h
  rcases Option.isSome_iff_exists.mp h with ⟨e, he⟩
  refine ⟨e.snd, ?_⟩
  unfold vm_get
  rw [he]
  rfl

/-- A map whose keys all differ from `k` does not hold `k`. -/
theorem vm_contains_eq_false_of_all (vm : List (String × OptValue)) (k : String)
    (h : vm.all (fun kv => !(kv.fst == k)) = true) : vm_contains vm k = false := by
  have hn : vm.find? (fun e => e.fst == k) = none := by
    rw [List.find?_eq_none]
    intro x hx
    have hx2 := List.all_eq_true.mp h x hx
    simpa using hx2
  unfold vm_contains
  rw [hn]
  rfl

/-- `po_store` never overwrites: a binding already in the map survives the
merge (this is the command-line-wins property of the store). -/
theorem vm_get_po_store (parsed : List (String × OptValue)) :
    ∀ vm k v, vm_get vm k = some v → vm_get (po_store parsed vm) k = some v := by
  induction parsed with
  | nil => intro vm k v h; exact h
  | cons kv rest ih =>
    intro vm k v h
    have hstep : vm_get (if vm_contains vm kv.fst then vm else vm ++ [kv]) k = some v := by
      split
      · exact h
      · exact vm_get_append_left vm [kv] k v h
    exact ih _ k v hstep

/-- A key present before the merge is present after it. -/
theorem vm_contains_po_store (parsed : List (String × OptValue))
    (vm : List (String × OptValue)) (k : String)
    (h : vm_contains vm k = true) : vm_contains (po_store parsed vm) k = true := by
  rcases vm_get_of_contains vm k h with ⟨v, hv⟩
  exact vm_contains_of_get _ k v (vm_get_po_store parsed vm k v hv)

/-- A key absent from the map and from all merged entries stays absent. -/
theorem vm_contains_po_store_false (parsed : List (String × OptValue)) :
    ∀ vm k, vm_contains vm k = false →
      parsed.all (fun kv => !(kv.fst == k)) = true →
      vm_contains (po_store parsed vm) k = false := by
  induction parsed with
  | nil => intro vm k h _; exact h
  | cons kv rest ih =>
    intro vm k h hall
    rw [List.all_cons] at hall
    have h1 : (kv.fst == k) = false := by
      cases hkv : kv.fst == k
      · rfl
      · rw [hkv] at hall; simp at hall
    have h2 : rest.all (fun e => !(e.fst == k)) = true := by
      cases hr : rest.all (fun e => !(e.fst == k))
      · rw [hr] at hall; simp at hall
      · rfl
    have hstep : vm_contains (if vm_contains vm kv.fst then vm else vm ++ [kv]) k = false := by
      split
      · exact h
      · rw [vm_contains_append, h]
        have hsing : vm_contains [kv] k = false := by
          unfold vm_contains
          simp [h1]
        rw [hsing]
        rfl
    exact ih _ k hstep h2

/-- A successful config parse returns exactly the file's entries, and all
its keys were declared in the registry. -/
theorem parse_config_file_ok (registry : List String)
    (entries parsed : List (String × OptValue))
    (h : parse_config_file registry entries = Except.ok parsed) :
    parsed = entries ∧ entries.all (fun kv => registry.contains kv.fst) = true := by
  unfold parse_config_file at h
  split at h
  · cases h
    exact ⟨rfl, by assumption⟩
  · cases h

/-- Shape of a successful config resolution: either the file was absent and
the map is the argv map, or the file was parsed entirely within the
registry and merged underneath the argv map. -/
theorem resolve_config_ok (registry : List String) (configExists : Bool)
    (configEntries argvVm vm : List (String × OptValue))
    (h : resolve_config registry configExists configEntries argvVm = Except.ok vm) :
    (configExists = false ∧ vm = argvVm) ∨
    (configExists = true ∧
      configEntries.all (fun kv => registry.contains kv.fst) = true ∧
      vm = po_store configEntries argvVm) := by
  unfold resolve_config at h
  split at h
  · right
    cases hp : parse_config_file registry configEntries with
    | error e => rw [hp] at h; cases h
    | ok parsed =>
      rw [hp] at h
      cases h
      rcases parse_config_file_ok registry configEntries parsed hp with ⟨hpe, hall⟩
      subst hpe
      exact ⟨by assumption, hall, rfl⟩
  · left
    cases h
    exact ⟨by simp_all, rfl⟩

/-- Every event of the set-level block is a log line or the level store. -/
theorem set_log_level_events_mem (prev req : Int) (e : Event)
    (h : e ∈ set_log_level_events prev req) :
    (∃ s, e = Event.logPrint s) ∨ e = Event.setLogLevel req := by
  unfold set_log_level_events at h
  split at h
  · rw [List.mem_singleton] at h
    exact Or.inl ⟨_, h⟩
  · split at h
    · simp only [List.mem_cons, List.mem_singleton, List.not_mem_nil, or_false] at h
      rcases h with h | h
      · exact Or.inr h
      · exact Or.inl ⟨_, h⟩
    · simp at h

/-- The set-level block never writes to the command channel. -/
theorem set_log_level_events_no_forwarding (prev req : Int) :
    (set_log_level_events prev req).all (fun e => !e.isForwarding) = true := by
  rw [List.all_eq_true]
  intro e he
  rcases set_log_level_events_mem prev req e he with ⟨s, hs⟩ | hs <;>
    subst hs <;> rfl

/-- The set-level block never attaches the console sink. -/
theorem console_not_in_sll (prev req : Int) :
    Event.addConsoleLogger ∉ set_log_level_events prev req := by
  intro h
  rcases set_log_level_events_mem prev req _ h with ⟨s, hs⟩ | hs <;> simp at hs

/-- The forwarding branch performs no logging initialization and no
daemonization action, whatever the parse and transmit outcomes. -/
theorem forward_commands_no_launch (inp : MainInput) (vm : List (String × OptValue)) :
    ((forward_commands inp vm).events.all
      (fun e => !e.isLoggingInit && !e.isDaemonAction)) = true := by
  unfold forward_commands
  cases hip : inp.parseIp with
  | none => simp [Event.isLoggingInit, Event.isDaemonAction]
  | some ip =>
    cases hport : inp.parsePort with
    | none => simp [Event.isLoggingInit, Event.isDaemonAction]
    | some port =>
      cases hr : inp.remoteAccepted <;>
        simp [Event.isLoggingInit, Event.isDaemonAction, Event.isForwarding]

/-- The logging-initialization actions never touch the command channel. -/
theorem logging_events_no_forwarding (inp : MainInput) (vm : List (String × OptValue)) :
    (logging_events inp vm).all (fun e => !e.isForwarding) = true := by
  rw [List.all_eq_true]
  intro e he
  unfold logging_events at he
  simp only [List.mem_append, List.mem_cons, List.not_mem_nil, or_false,
    List.mem_singleton] at he
  rcases he with ((he | he) | he) | he
  · subst he; rfl
  · rcases set_log_level_events_mem _ _ _ he with ⟨s, hs⟩ | hs <;> subst hs <;> rfl
  · subst he; rfl
  · split at he
    · rw [List.mem_singleton] at he; subst he; rfl
    · simp at he

/-- The mode-dispatch actions never touch the command channel. -/
theorem launch_events_no_forwarding (inp : MainInput) (vm : List (String × OptValue)) :
    (launch_events inp vm).all (fun e => !e.isForwarding) = true := by
  unfold launch_events
  split_ifs <;> simp [Event.isForwarding]

/-- The mode dispatch never attaches the console sink. -/
theorem console_not_in_launch (inp : MainInput) (vm : List (String × OptValue)) :
    Event.addConsoleLogger ∉ launch_events inp vm := by
  unfold launch_events
  split_ifs <;> simp

/-- The console sink appears among the logging-initialization actions
exactly when neither detach nor service mode is requested. -/
theorem console_in_logging_iff (inp : MainInput) (vm : List (String × OptValue)) :
    (Event.addConsoleLogger ∈ logging_events inp vm) ↔
      (vm_contains vm "detach" = false ∧ win_service_flag inp vm = false) := by
  have hsll := console_not_in_sll LOG_LEVEL_0 (vm_get_int vm "log-level" LOG_LEVEL_0)
  unfold logging_events
  simp only [List.mem_append, List.mem_singleton, List.mem_cons, List.not_mem_nil]
  cases hd : vm_contains vm "detach" <;> cases hw : win_service_flag inp vm <;>
    simp [hsll]

/-! ### Claim theorems -/

/-- Claim C1: for every option set both on the command line and in the
config file, the resolved configuration holds the argv value — the config
file is parsed only when it exists and its values are merged underneath the
values already stored from argv, so on any key conflict the command-line
value wins. -/
theorem config_argv_precedence (registry : List String) (configExists : Bool)
    (configEntries argvVm vmOut : List (String × OptValue)) (k : String) (v : OptValue)
    (hargv : vm_get argvVm k = some v)
    (_hconf : configEntries.any (fun kv => kv.fst == k) = true)
    (hres : resolve_config registry configExists configEntries argvVm = Except.ok vmOut) :
    vm_get vmOut k = some v ∧ (configExists = false → vmOut = argvVm) := by
  rcases resolve_config_ok registry configExists configEntries argvVm vmOut hres with
    ⟨hex, hvm⟩ | ⟨hex, hall, hvm⟩
  · subst hvm
    exact ⟨hargv, fun _ => rfl⟩
  · subst hvm
    refine ⟨vm_get_po_store configEntries argvVm k v hargv, ?_⟩
    intro hc
    rw [hex] at hc
    cases hc

/-- Witness for C1: key `log-level` set to 2 on argv and 7 in the config
file resolves to the argv value 2. -/
theorem config_argv_precedence_witness :
    vm_get [("log-level", OptValue.int 2)] "log-level" = some (OptValue.int 2) ∧
    ((true : Bool) = false →
      [("log-level", OptValue.int 2)] = [("log-level", OptValue.int 2)]) :=
  config_argv_precedence ["log-file", "log-level"] true
    [("log-level", OptValue.int 7)] [("log-level", OptValue.int 2)]
    [("log-level", OptValue.int 2)] "log-level" (OptValue.int 2)
    rfl rfl rfl

/-- Claim C2: a requested log level outside [LOG_LEVEL_MIN, LOG_LEVEL_MAX]
makes the controller emit a warning and keep the effective
log-detalisation level at its prior value; the request is neither clamped
to a bound nor applied. -/
theorem log_level_out_of_range_rejected (prev req : Int)
    (h : req < LOG_LEVEL_MIN ∨ req > LOG_LEVEL_MAX) :
    set_log_level_result prev req = prev ∧
    set_log_level_events prev req =
      [Event.logPrint ("Wrong log level value: " ++ toString req)] := by
  unfold set_log_level_result set_log_level_events
  rw [if_pos h, if_pos h]
  exact ⟨rfl, rfl⟩

/-- Witness for C2: requesting LOG_LEVEL_MAX + 1 = 5 with prior level 3
keeps level 3 and warns. -/
theorem log_level_out_of_range_rejected_witness :
    set_log_level_result 3 5 = 3 ∧
    set_log_level_events 3 5 =
      [Event.logPrint ("Wrong log level value: " ++ toString (5 : Int))] :=
  log_level_out_of_range_rejected 3 5 (by decide)

/-- Claim C5: in the forwarding branch the remote boolean outcome maps to
the exit code — true gives exit 0, false (the shape any transport failure
surfaces as) prints "Unknown command" to the error stream and gives
exit 1. -/
theorem remote_result_exit_code (inp : MainInput) (vm : List (String × OptValue))
    (ip port : Nat) (hip : inp.parseIp = some ip) (hport : inp.parsePort = some port) :
    (inp.remoteAccepted = true → (forward_commands inp vm).exitCode = 0) ∧
    (inp.remoteAccepted = false → (forward_commands inp vm).exitCode = 1 ∧
      Event.stderrMsg "Unknown command" ∈ (forward_commands inp vm).events) := by
  unfold forward_commands
  rw [hip, hport]
  constructor
  · intro hr
    rw [hr]
    rfl
  · intro hr
    rw [hr]
    exact ⟨rfl, by simp⟩

/-- A benign concrete controller input used by the witnesses. -/
def baseInput : MainInput where
  argvParseOk := true
  helpRequested := false
  sysQuery := false
  command := []
  argvOpts := []
  configExists := false
  configEntries := []
  daemonNames := ["rpc-bind-ip", "rpc-bind-port"]
  rpcIpDefault := "127.0.0.1"
  rpcPortDefault := "18081"
  parseIp := some 2130706433
  parsePort := some 18081
  remoteAccepted := true
  dataDir := ⟨true, ["home", "user", ".bitmonero"]⟩
  defaultLogFile := ⟨true, ["home", "user", "bitmonero.log"]⟩
  defaultLogFolder := ⟨true, ["home", "user"]⟩
  fsExistsParent := fun p => !p.comps.isEmpty
  isWindows := false
  installOk := true
  startOk := true
  initialLogLevel := 0

/-- Witness for C5: with a well-formed address and an accepting remote, the
exit code is 0 (and the rejection clause holds vacuously). -/
theorem remote_result_exit_code_witness :
    (baseInput.remoteAccepted = true → (forward_commands baseInput []).exitCode = 0) ∧
    (baseInput.remoteAccepted = false → (forward_commands baseInput []).exitCode = 1 ∧
      Event.stderrMsg "Unknown command" ∈ (forward_commands baseInput []).events) :=
  remote_result_exit_code baseInput [] 2130706433 18081 rfl rfl

/-- Claim C6: a malformed bind ip or port makes the forwarding branch print
an error to the standard error stream and exit with code 1 before the
control-channel client is constructed, so no network attempt is made. -/
theorem address_parse_error_no_network (inp : MainInput) (vm : List (String × OptValue))
    (h : inp.parseIp = none ∨ inp.parsePort = none) :
    (forward_commands inp vm).exitCode = 1 ∧
    (forward_commands inp vm).events.any Event.isStderr = true ∧
    (forward_commands inp vm).events.all (fun e => !e.isForwarding) = true := by
  unfold forward_commands
  rcases h with h | h
  · rw [h]
    exact ⟨rfl, rfl, rfl⟩
  · cases hip : inp.parseIp with
    | none => exact ⟨rfl, rfl, rfl⟩
    | some ip =>
      rw [h]
      exact ⟨rfl, rfl, rfl⟩

/-- Witness for C6: an unparsable ip string gives exit 1, an error-stream
message and no forwarding event. -/
theorem address_parse_error_no_network_witness :
    (forward_commands { baseInput with parseIp := none } []).exitCode = 1 ∧
    (forward_commands { baseInput with parseIp := none } []).events.any
      Event.isStderr = true ∧
    (forward_commands { baseInput with parseIp := none } []).events.all
      (fun e => !e.isForwarding) = true :=
  address_parse_error_no_network { baseInput with parseIp := none } [] (Or.inl rfl)

/-- Claim C7: a relative configured log-file path is resolved against the
data directory, and when the resolved candidate has no parent directory or
its parent does not exist the process-defined default log file is
substituted, so the path the file sink is attached with always has an
existing parent and log initialization cannot fail. -/
theorem log_file_fallback (dataDir : FsPath) (configured : String) (dflt : FsPath)
    (fs : FsPath → Bool)
    (h1 : dflt.hasParentPath = true) (h2 : fs dflt.parentPath = true) :
    ((FsPath.ofString configured).isRelative = true →
      log_file_candidate dataDir configured =
        dataDir.join (FsPath.ofString configured)) ∧
    (resolve_log_file dataDir configured dflt fs).hasParentPath = true ∧
    fs (resolve_log_file dataDir configured dflt fs).parentPath = true := by
  refine ⟨fun hrel => ?_, ?_⟩
  · unfold log_file_candidate
    rw [if_pos hrel]
  · have hrw : resolve_log_file dataDir configured dflt fs =
        (if (!(log_file_candidate dataDir configured).hasParentPath ||
              !fs (log_file_candidate dataDir configured).parentPath) = true then dflt
         else log_file_candidate dataDir configured) := rfl
    rw [hrw]
    by_cases hc : (!(log_file_candidate dataDir configured).hasParentPath ||
        !fs (log_file_candidate dataDir configured).parentPath) = true
    · rw [if_pos hc]
      exact ⟨h1, h2⟩
    · rw [if_neg hc]
      refine ⟨?_, ?_⟩
      · cases hp : (log_file_candidate dataDir configured).hasParentPath
        · refine absurd ?_ hc
          rw [hp]
          rfl
        · rfl
      · cases hfs : fs (log_file_candidate dataDir configured).parentPath
        · refine absurd ?_ hc
          rw [hfs]
          simp
        · rfl

/-- Witness for C7: relative path `bitmonero.log` resolves under the data
directory whose parent exists, so no fallback is needed and the parent of
the sink path exists. -/
theorem log_file_fallback_witness :
    ((FsPath.ofString "bitmonero.log").isRelative = true →
      log_file_candidate ⟨true, ["data"]⟩ "bitmonero.log" =
        FsPath.join ⟨true, ["data"]⟩ (FsPath.ofString "bitmonero.log")) ∧
    (resolve_log_file ⟨true, ["data"]⟩ "bitmonero.log" ⟨true, ["tmp", "d.log"]⟩
        (fun p => !p.comps.isEmpty)).hasParentPath = true ∧
    (fun (p : FsPath) => !p.comps.isEmpty)
      (resolve_log_file ⟨true, ["data"]⟩ "bitmonero.log" ⟨true, ["tmp", "d.log"]⟩
        (fun p => !p.comps.isEmpty)).parentPath = true :=
  log_file_fallback ⟨true, ["data"]⟩ "bitmonero.log" ⟨true, ["tmp", "d.log"]⟩
    (fun p => !p.comps.isEmpty) rfl rfl

/-- Claim C9: the daemon-launch path forces the effective level to
LOG_LEVEL_0 as its first action, before the requested level is examined, so
an out-of-range request leaves the effective level at exactly LOG_LEVEL_0,
whatever level was configured, requested, or previously in force. -/
theorem launch_forces_level_zero (inp : MainInput) (vm : List (String × OptValue))
    (h : vm_get_int vm "log-level" LOG_LEVEL_0 < LOG_LEVEL_MIN ∨
         vm_get_int vm "log-level" LOG_LEVEL_0 > LOG_LEVEL_MAX) :
    (init_logging_and_launch inp vm).events.head? =
      some (Event.setLogLevel LOG_LEVEL_0) ∧
    (init_logging_and_launch inp vm).logLevel = LOG_LEVEL_0 := by
  constructor
  · rfl
  · show set_log_level_result LOG_LEVEL_0 (vm_get_int vm "log-level" LOG_LEVEL_0) =
      LOG_LEVEL_0
    unfold set_log_level_result
    rw [if_pos h]

/-- Witness for C9: requesting level 100 on the launch path leaves the
final effective level at LOG_LEVEL_0. -/
theorem launch_forces_level_zero_witness :
    (init_logging_and_launch baseInput [("log-level", OptValue.int 100)]).events.head? =
      some (Event.setLogLevel LOG_LEVEL_0) ∧
    (init_logging_and_launch baseInput
      [("log-level", OptValue.int 100)]).logLevel = LOG_LEVEL_0 :=
  launch_forces_level_zero baseInput [("log-level", OptValue.int 100)] (by decide)

/-- Concrete input for the detach-service scenario: windows build, detach
on argv, service installation succeeds and the start fails. -/
def c3input : MainInput :=
  { baseInput with
      argvOpts := [("detach", OptValue.boolean true)]
      isWindows := true
      installOk := true
      startOk := false }

/-- Claim C3 counterexample: with installation succeeding and the start
failing, the controller does uninstall the service, but the process exit
code is 0, not the claimed 1. -/
theorem service_rollback_exit_counterexample :
    Event.uninstallService ∈ (mainRun c3input).events ∧
    (mainRun c3input).exitCode = 0 ∧ ¬((mainRun c3input).exitCode = 1) := by
  decide

/-- Claim C3 (amended): in the DetachService launch mode, whenever service
installation succeeds and the subsequent start fails, the controller
uninstalls the service (no registered-but-unstartable service remains) and
the process exits with code 0 — the start failure is not reflected in the
exit status. -/
theorem service_rollback_uninstall (inp : MainInput) (vm : List (String × OptValue))
    (hw : inp.isWindows = true) (hd : vm_contains vm "detach" = true)
    (hs : vm_contains vm "run-as-service" = false)
    (hi : inp.installOk = true) (hst : inp.startOk = false) :
    Event.uninstallService ∈ (init_logging_and_launch inp vm).events ∧
    (init_logging_and_launch inp vm).exitCode = 0 := by
  refine ⟨?_, rfl⟩
  show Event.uninstallService ∈ logging_events inp vm ++ launch_events inp vm
  rw [List.mem_append]
  right
  unfold launch_events win_service_flag
  rw [hw, hs, hd, hi, hst]
  simp

/-- Witness for the amended C3 at the concrete rollback input. -/
theorem service_rollback_uninstall_witness :
    Event.uninstallService ∈
      (init_logging_and_launch c3input [("detach", OptValue.boolean true)]).events ∧
    (init_logging_and_launch c3input [("detach", OptValue.boolean true)]).exitCode = 0 :=
  service_rollback_uninstall c3input [("detach", OptValue.boolean true)]
    rfl (by decide) (by decide) rfl rfl

/-- Claim C8: on the daemon-launch path the file sink is attached
unconditionally, and the console sink is attached if and only if neither
the detach flag nor the run-as-service flag is present in the resolved
configuration. -/
theorem sink_attachment (inp : MainInput) (vm : List (String × OptValue))
    (hplat : vm_contains vm "run-as-service" = true → inp.isWindows = true) :
    (init_logging_and_launch inp vm).events.any Event.isFileLogger = true ∧
    (Event.addConsoleLogger ∈ (init_logging_and_launch inp vm).events ↔
      (vm_contains vm "detach" = false ∧ vm_contains vm "run-as-service" = false)) := by
  have hws : win_service_flag inp vm = vm_contains vm "run-as-service" := by
    unfold win_service_flag
    cases h : vm_contains vm "run-as-service"
    · simp
    · simp [hplat h]
  constructor
  · show (logging_events inp vm ++ launch_events inp vm).any Event.isFileLogger = true
    rw [List.any_append]
    have hf : (logging_events inp vm).any Event.isFileLogger = true := by
      unfold logging_events
      simp [Event.isFileLogger, List.any_append]
    rw [hf]
    rfl
  · show Event.addConsoleLogger ∈ logging_events inp vm ++ launch_events inp vm ↔ _
    rw [List.mem_append]
    constructor
    · rintro (h | h)
      · rcases (console_in_logging_iff inp vm).mp h with ⟨hd2, hw2⟩
        rw [hws] at hw2
        exact ⟨hd2, hw2⟩
      · exact absurd h (console_not_in_launch inp vm)
    · rintro ⟨hd2, hw2⟩
      refine Or.inl ((console_in_logging_iff inp vm).mpr ⟨hd2, ?_⟩)
      rw [hws]
      exact hw2

/-- Witness for C8: with neither flag present the file sink is attached and
the console sink is attached too. -/
theorem sink_attachment_witness :
    (init_logging_and_launch baseInput []).events.any Event.isFileLogger = true ∧
    (Event.addConsoleLogger ∈ (init_logging_and_launch baseInput []).events ↔
      (vm_contains [] "detach" = false ∧ vm_contains [] "run-as-service" = false)) :=
  sink_attachment baseInput [] (by decide)

/-- Claim C4: command forwarding and daemon launch are mutually exclusive —
when the positional token list is non-empty the run performs no logging
initialization and no daemonization action (it returns from the forwarding
branch), and when it is empty no forwarding is performed. -/
theorem forwarding_launch_mutual_exclusion (inp : MainInput)
    (hnd1 : inp.argvOpts.all (fun kv => !(kv.fst == "daemon_command")) = true)
    (hnd2 : inp.daemonNames.contains "daemon_command" = false) :
    (inp.command ≠ [] →
      (mainRun inp).events.all (fun e => !e.isLoggingInit && !e.isDaemonAction) = true) ∧
    (inp.command = [] →
      (mainRun inp).events.all (fun e => !e.isForwarding) = true) := by
  cases hpo : inp.argvParseOk with
  | false =>
    have hmain : mainRun inp = ⟨1, [], inp.initialLogLevel⟩ := by
      unfold mainRun
      rw [hpo]
      rfl
    rw [hmain]
    exact ⟨fun _ => rfl, fun _ => rfl⟩
  | true =>
  cases hh : inp.helpRequested with
  | true =>
    have hmain : mainRun inp = ⟨0, [], inp.initialLogLevel⟩ := by
      unfold mainRun
      rw [hpo, hh]
      rfl
    rw [hmain]
    exact ⟨fun _ => rfl, fun _ => rfl⟩
  | false =>
  cases hq : inp.sysQuery with
  | true =>
    have hmain : mainRun inp = ⟨0, [], inp.initialLogLevel⟩ := by
      unfold mainRun
      rw [hpo, hh, hq]
      rfl
    rw [hmain]
    exact ⟨fun _ => rfl, fun _ => rfl⟩
  | false =>
  cases hres : resolve_config (core_settings_names inp.daemonNames) inp.configExists
      inp.configEntries (argv_vm inp) with
  | error e =>
    have hmain : mainRun inp =
        ⟨1, [Event.logError ("Exception in main! " ++ e)], inp.initialLogLevel⟩ := by
      unfold mainRun
      rw [hpo, hh, hq, hres]
      rfl
    rw [hmain]
    exact ⟨fun _ => rfl, fun _ => rfl⟩
  | ok vm =>
    constructor
    · intro hcmd
      have h1 : vm_contains (argv_vm inp) "daemon_command" = true := by
        unfold argv_vm
        cases hcl : inp.command with
        | nil => exact absurd hcl hcmd
        | cons a l =>
          rw [vm_contains_append]
          have h2 : vm_contains (if (a :: l).isEmpty then []
              else [("daemon_command", OptValue.strList (a :: l))])
              "daemon_command" = true := rfl
          rw [h2, Bool.or_true]
      have hc : vm_contains vm "daemon_command" = true := by
        rcases resolve_config_ok _ _ _ _ _ hres with ⟨_, hvm⟩ | ⟨_, _, hvm⟩
        · rw [hvm]
          exact h1
        · rw [hvm]
          exact vm_contains_po_store _ _ _ h1
      have hmain : mainRun inp = forward_commands inp vm := by
        unfold mainRun
        rw [hpo, hh, hq, hres]
        simp [hc]
      rw [hmain]
      exact forward_commands_no_launch inp vm
    · intro hcmd
      have h1 : vm_contains (argv_vm inp) "daemon_command" = false := by
        unfold argv_vm
        rw [hcmd, vm_contains_append,
          vm_contains_eq_false_of_all inp.argvOpts "daemon_command" hnd1]
        rfl
      have hc : vm_contains vm "daemon_command" = false := by
        rcases resolve_config_ok _ _ _ _ _ hres with ⟨_, hvm⟩ | ⟨_, hall, hvm⟩
        · rw [hvm]
          exact h1
        · have hreg : (core_settings_names inp.daemonNames).contains "daemon_command"
              = false := by
            simp [core_settings_names]
            simpa using hnd2
          have hall2 : inp.configEntries.all
              (fun kv => !(kv.fst == "daemon_command")) = true := by
            rw [List.all_eq_true] at hall ⊢
            intro kv hkv
            have h3 : (core_settings_names inp.daemonNames).contains kv.fst = true :=
              hall kv hkv
            cases hkd : kv.fst == "daemon_command" with
            | false => rfl
            | true =>
              have hke : kv.fst = "daemon_command" := eq_of_beq hkd
              rw [hke, hreg] at h3
              exact Bool.noConfusion h3
          rw [hvm]
          exact vm_contains_po_store_false inp.configEntries (argv_vm inp)
            "daemon_command" h1 hall2
      have hmain : mainRun inp = init_logging_and_launch inp vm := by
        unfold mainRun
        rw [hpo, hh, hq, hres]
        simp [hc]
      rw [hmain]
      show (logging_events inp vm ++ launch_events inp vm).all
        (fun e => !e.isForwarding) = true
      rw [List.all_append, logging_events_no_forwarding, launch_events_no_forwarding]
      rfl

/-- Concrete input with a positional command token. -/
def c4input : MainInput := { baseInput with command := ["status"] }

/-- Witness for C4 at an input that carries one positional token. -/
theorem forwarding_launch_mutual_exclusion_witness :
    (c4input.command ≠ [] →
      (mainRun c4input).events.all (fun e => !e.isLoggingInit && !e.isDaemonAction) = true) ∧
    (c4input.command = [] →
      (mainRun c4input).events.all (fun e => !e.isForwarding) = true) :=
  forwarding_launch_mutual_exclusion c4input rfl (by decide)

/-- Claim C10: the config file is parsed only against the core-settings
registry (log-file, log-level and the daemon's own options); a config file
that exists and holds a key outside that registry makes the parse throw,
the top-level handler catches it, and the process exits with code 1 before
any service action. -/
theorem unknown_config_key_fatal (inp : MainInput)
    (hp : inp.argvParseOk = true) (hh : inp.helpRequested = false)
    (hq : inp.sysQuery = false) (hex : inp.configExists = true)
    (hbad : ∃ kv ∈ inp.configEntries,
      (core_settings_names inp.daemonNames).contains kv.fst = false) :
    (mainRun inp).exitCode = 1 ∧
    (mainRun inp).events.all (fun e => !e.isDaemonAction) = true := by
  obtain ⟨kv, hmem, hkv⟩ := hbad
  have hnall : ¬(inp.configEntries.all
      (fun kv2 => (core_settings_names inp.daemonNames).contains kv2.fst) = true) := by
    intro hall
    have h3 : (core_settings_names inp.daemonNames).contains kv.fst = true :=
      List.all_eq_true.mp hall kv hmem
    rw [hkv] at h3
    exact Bool.noConfusion h3
  have hparse : parse_config_file (core_settings_names inp.daemonNames) inp.configEntries
      = Except.error "unrecognised option in config file" := by
    unfold parse_config_file
    rw [if_neg hnall]
  have hres : resolve_config (core_settings_names inp.daemonNames) inp.configExists
      inp.configEntries (argv_vm inp)
      = Except.error "unrecognised option in config file" := by
    unfold resolve_config
    rw [hex, hparse]
    rfl
  have hmain : mainRun inp = ⟨1,
      [Event.logError ("Exception in main! " ++ "unrecognised option in config file")],
      inp.initialLogLevel⟩ := by
    unfold mainRun
    rw [hp, hh, hq, hres]
    rfl
  rw [hmain]
  exact ⟨rfl, rfl⟩

/-- Witness for C10: a config file holding `data-dir` (not a core setting)
aborts with exit code 1 and no service action. -/
theorem unknown_config_key_fatal_witness :
    (mainRun { baseInput with
        configExists := true
        configEntries := [("data-dir", OptValue.str "/x")] }).exitCode = 1 ∧
    (mainRun { baseInput with
        configExists := true
        configEntries := [("data-dir", OptValue.str "/x")] }).events.all
      (fun e => !e.isDaemonAction) = true :=
  unknown_config_key_fatal
    { baseInput with
        configExists := true
        configEntries := [("data-dir", OptValue.str "/x")] }
    rfl rfl rfl rfl
    ⟨("data-dir", OptValue.str "/x"), by decide, by decide⟩
